import Mathlib

/-!
# Verification of `petclaw/solver.py` (class `PetSolver`)

Shallow embedding of the parallel solver adaptation layer: the operations
`append_ghost_cells`, `set_global_q`, `append_ghost_cells_to_aux`,
`communicateCFL` and `allocate_rk_stages`, together with theorems settling
the frozen claims about them.

Modelling conventions:
* numpy-style dense arrays are a shape (`List Nat`) plus a total indexing
  function on multi-indices (`List Nat → Int`); array values are opaque
  numeric payloads modelled as `Int`.
* Python slice bounds (including negative bounds) are modelled by `pyBound`,
  `sliceLen` and `sliceMap`, following CPython's slice-clamping rules.
* the PETSc distributed-array library is external: the post-scatter local
  vector buffers appear as oracle fields (`lq`, `laux`) of the state, and
  each operation additionally returns the list of communication primitives
  (scatters / reductions, cf. the module's glossary) it invokes.
* Python exceptions are values of `PyErr`; an operation that can raise
  returns the post state paired with an optional error.
-/

namespace PetClaw

/-- A dense multi-dimensional array: a shape together with a total indexing
function.  `get idx` reads the entry at multi-index `idx` (positions past
the end of `idx` read as index 0, mirroring how the embedding's callers
always pass indices of the full rank). -/
structure NDArray where
  shape : List Nat
  get : List Nat → Int

/-- CPython's clamping of one slice bound on an axis of length `len`:
a negative bound counts from the end, and the result is clamped to
`[0, len]`. -/
def pyBound (len : Nat) (i : Int) : Nat :=
  if i < 0 then ((len : Int) + i).toNat else min i.toNat len

/-- Length of the Python slice `a[start:stop]` on an axis of length `len`. -/
def sliceLen (len : Nat) (start stop : Int) : Nat :=
  pyBound len stop - pyBound len start

/-- Index map of the Python slice `a[start:stop]`: position `j` of the slice
reads position `sliceMap len start j` of the original axis. -/
def sliceMap (len : Nat) (start : Int) (j : Nat) : Nat :=
  pyBound len start + j

/-- Fortran-order (column-major) flattening of a multi-index against a shape:
for shape `[d0, d1, d2]` the element `(i0, i1, i2)` sits at flat offset
`i0 + d0 * (i1 + d1 * i2)`, as in `reshape(dims, order = 'F')`. -/
def fortranIndex : List Nat → List Nat → Nat
  | d :: ds, i :: is => i + d * fortranIndex ds is
  | _, _ => 0

/-- The grid descriptor: number of spatial dimensions and the list `ng` of
local (non-ghosted) cell counts per dimension. -/
structure Grid where
  ndim : Nat
  ng : List Nat
deriving DecidableEq

/-- The communication primitives of the wrapped distributed-array library
(global-to-local scatter, local-to-global scatter, max-reduction). -/
inductive PetscCommCall
  | globalToLocal
  | localToGlobal
  | maxReduction
deriving DecidableEq

/-- Python exceptions observable in this module.  `notImplementedError`
comes from an explicit `raise` statement; `unboundLocalError` is the
interpreter's implicit error on reading a never-assigned local. -/
inductive PyErr
  | notImplementedError (msg : String)
  | unboundLocalError (name : String)
deriving DecidableEq

/-- Whether the error originates from an explicit `raise` statement in the
module (as opposed to an implicit interpreter error). -/
def PyErr.explicitRaise : PyErr → Bool
  | .notImplementedError _ => true
  | .unboundLocalError _ => false

/-- The per-process solver state visible to the ghost-cell operations:
the grid, the array extents `meqn` / `maux`, the current `q` array, and the
flat local (ghosted) vector buffers that `getArray()` exposes after the
library's global-to-local scatter. -/
structure PState where
  grid : Grid
  meqn : Nat
  maux : Nat
  q : NDArray
  lq : Nat → Int
  laux : Nat → Int

/-- `PetSolver.append_ghost_cells(state)`: after the `globalToLocal` scatter,
reshape the local vector buffer in Fortran order to
`q_dim = [meqn] + [n + 2*mbc for n in grid.ng]`.  Returns the ghosted array
together with the communication trace of the call. -/
def append_ghost_cells (mbc : Nat) (state : PState) :
    NDArray × List PetscCommCall :=
  let q_dim := state.meqn :: state.grid.ng.map (fun n => n + 2 * mbc)
  let ghosted_q : NDArray :=
    { shape := q_dim, get := fun idx => state.lq (fortranIndex q_dim idx) }
  (ghosted_q, [PetscCommCall.globalToLocal])

/-- `PetSolver.append_ghost_cells_to_aux(state)`: identical to
`append_ghost_cells` but on the aux vector, with leading extent `maux`. -/
def append_ghost_cells_to_aux (mbc : Nat) (state : PState) :
    NDArray × List PetscCommCall :=
  let aux_dim := state.maux :: state.grid.ng.map (fun n => n + 2 * mbc)
  let ghosted_aux : NDArray :=
    { shape := aux_dim, get := fun idx => state.laux (fortranIndex aux_dim idx) }
  (ghosted_aux, [PetscCommCall.globalToLocal])

/-- `PetSolver.set_global_q(state, ghosted_q)`: the PETSc scatter lines of
the method are commented out in the source, so the executed body only
slices: 1D assigns `state.q = ghosted_q[:, mbc:-mbc]`, 2D assigns
`state.q = ghosted_q[:, mbc:mx+mbc, mbc:my+mbc]`, and any other `ndim`
raises `NotImplementedError` before touching the state.  Returns the post
state, the optional error, and the (empty) communication trace. -/
def set_global_q (mbc : Nat) (state : PState) (ghosted_q : NDArray) :
    PState × Option PyErr × List PetscCommCall :=
  let grid := state.grid
  if grid.ndim = 1 then
    let L := ghosted_q.shape.getD 1 0
    let q' : NDArray :=
      { shape := [ghosted_q.shape.getD 0 0, sliceLen L (mbc : Int) (-(mbc : Int))]
        get := fun idx =>
          ghosted_q.get [idx.getD 0 0, sliceMap L (mbc : Int) (idx.getD 1 0)] }
    ({ state with q := q' }, none, [])
  else if grid.ndim = 2 then
    let mx := grid.ng.getD 0 0
    let my := grid.ng.getD 1 0
    let L1 := ghosted_q.shape.getD 1 0
    let L2 := ghosted_q.shape.getD 2 0
    let q' : NDArray :=
      { shape := [ghosted_q.shape.getD 0 0,
                  sliceLen L1 (mbc : Int) ((mx : Int) + (mbc : Int)),
                  sliceLen L2 (mbc : Int) ((my : Int) + (mbc : Int))]
        get := fun idx =>
          ghosted_q.get [idx.getD 0 0,
                         sliceMap L1 (mbc : Int) (idx.getD 1 0),
                         sliceMap L2 (mbc : Int) (idx.getD 2 0)] }
    ({ state with q := q' }, none, [])
  else
    (state,
     some (PyErr.notImplementedError
       "The case of 3D is not handled in this function yet"),
     [])

/-- `Vec.max` of PETSc over the concatenation of the per-process one-element
arrays: the maximum of a nonempty list of per-process values (the empty case
never arises, as every process contributes `[self.cfl]`). -/
def vecMax : List Int → Int
  | [] => 0
  | x :: xs => xs.foldl max x

/-- `PetSolver.communicateCFL()`, viewed over the whole process ensemble:
`cfls` lists each process's `self.cfl`.  When `dt_variable` holds, every
process builds a one-element parallel vector from its local value and reads
the global maximum back into `self.cfl`; otherwise the body is skipped.
The trace lists the communication primitives of one invocation. -/
def communicateCFL (dt_variable : Bool) (cfls : List Int) :
    List Int × List PetscCommCall :=
  if dt_variable then
    (cfls.map (fun _ => vecMax cfls), [PetscCommCall.maxReduction])
  else
    (cfls, [])

/-- The fields of a `State` object that `allocate_rk_stages` reads or
writes on each Runge-Kutta stage (grid, extents, stencil width, shared
data, time, and the optional aux payload). -/
structure StageState where
  grid : Grid
  meqn : Nat
  maux : Nat
  stencil_width : Nat
  aux_global : Int
  t : Int
  aux : Option Int
deriving DecidableEq

/-- One loop iteration of `allocate_rk_stages`: a fresh `State(state.grid)`
whose fields are copied from the base state, with `set_stencil_width(mbc)`,
and `aux` copied only when `maux > 0`. -/
def mkStage (base : StageState) (mbc : Nat) : StageState :=
  { grid := base.grid
    meqn := base.meqn
    maux := base.maux
    stencil_width := mbc
    aux_global := base.aux_global
    t := base.t
    aux := if base.maux > 0 then base.aux else none }

/-- `PetSolver.allocate_rk_stages(solutions)`: the if/elif chain binds
`nregisters` only for `'Euler'`, `'SSP33'`, `'SSP104'`; the body then
unconditionally executes `self.rk_stages = []` and loops
`range(nregisters - 1)` times appending fresh stages.  For any other
integrator name, reading `nregisters` at the loop header raises
`UnboundLocalError` — after `rk_stages` has already been reset to `[]`.
`rk_stages` is the attribute's pre-call value (overwritten regardless);
the first component of the result is its post-call value. -/
def allocate_rk_stages (time_integrator : String) (mbc : Nat)
    (_rk_stages : List StageState) (base : StageState) :
    List StageState × Option PyErr :=
  let nregisters? : Option Nat :=
    if time_integrator = "Euler" then some 1
    else if time_integrator = "SSP33" then some 2
    else if time_integrator = "SSP104" then some 3
    else none
  match nregisters? with
  | some nregisters =>
      ((List.range (nregisters - 1)).map (fun _ => mkStage base mbc), none)
  | none => ([], some (PyErr.unboundLocalError "nregisters"))

/-! ## Concrete instances used by witnesses and counterexamples -/

/-- A 1D grid with 2 interior cells. -/
def grid1 : Grid := ⟨1, [2]⟩

/-- A 1D grid with 3 interior cells. -/
def grid1b : Grid := ⟨1, [3]⟩

/-- A 2D grid with 2 × 3 interior cells. -/
def grid2 : Grid := ⟨2, [2, 3]⟩

/-- A 3D grid (unsupported by `set_global_q`). -/
def grid3 : Grid := ⟨3, [2, 2, 2]⟩

/-- A placeholder `q` array. -/
def zeroQ : NDArray := ⟨[], fun _ => 0⟩

/-- A 1D state: `meqn = 1`, local buffer holding its own flat offsets. -/
def state1 : PState := ⟨grid1, 1, 0, zeroQ, fun k => (k : Int), fun _ => 0⟩

/-- A 1D state on `grid1b` with `meqn = 2`. -/
def state1b : PState := ⟨grid1b, 2, 0, zeroQ, fun k => (k : Int), fun _ => 0⟩

/-- A 2D state: `meqn = 1`. -/
def state2 : PState := ⟨grid2, 1, 0, zeroQ, fun k => (k : Int), fun _ => 0⟩

/-- A 3D state. -/
def state3 : PState := ⟨grid3, 1, 0, zeroQ, fun _ => 0, fun _ => 0⟩

/-- A `[1, 2]`-shaped array holding its own Fortran offsets. -/
def ghost12 : NDArray := ⟨[1, 2], fun idx => (fortranIndex [1, 2] idx : Int)⟩

/-- A `[1, 4]`-shaped array (ghosted shape of `state1` at `mbc = 1`). -/
def ghost14 : NDArray := ⟨[1, 4], fun idx => (fortranIndex [1, 4] idx : Int)⟩

/-- A `[2, 3]`-shaped array (ghosted shape of `state1b` at `mbc = 0`). -/
def ghost23 : NDArray := ⟨[2, 3], fun idx => (fortranIndex [2, 3] idx : Int)⟩

/-- A `[1, 2, 3]`-shaped array (ghosted shape of `state2` at `mbc = 0`). -/
def ghost123 : NDArray := ⟨[1, 2, 3], fun idx => (fortranIndex [1, 2, 3] idx : Int)⟩

/-- A `[1, 4, 5]`-shaped array (ghosted shape of `state2` at `mbc = 1`). -/
def ghost145 : NDArray := ⟨[1, 4, 5], fun idx => (fortranIndex [1, 4, 5] idx : Int)⟩

/-- A concrete base state for `allocate_rk_stages`. -/
def baseStage : StageState := ⟨grid1, 3, 1, 2, 7, 5, some 9⟩

/-! ## Slice arithmetic -/

/-- A non-negative Python slice bound clamps to `min i len`. -/
theorem pyBound_ofNat (len i : Nat) : pyBound len (i : Int) = min i len := by
  unfold pyBound
  split_ifs <;> omega

/-- A negative Python slice bound `-m` (with `m ≥ 1`) clamps to `len - m`. -/
theorem pyBound_neg (len m : Nat) (h : 1 ≤ m) :
    pyBound len (-(m : Int)) = len - m := by
  unfold pyBound
  split_ifs <;> omega

/-- `a[m:-m]` on an axis of length `n + 2*m` keeps exactly `n` entries
(for `m ≥ 1`). -/
theorem sliceLen_ghost (n m : Nat) (h : 1 ≤ m) :
    sliceLen (n + 2 * m) (m : Int) (-(m : Int)) = n := by
  unfold sliceLen pyBound
  split_ifs <;> omega

/-- `a[m:-m]` on an axis of any length `L` keeps `L - 2*m` entries
(for `m ≥ 1`; `-` is truncated subtraction). -/
theorem sliceLen_neg_total (L m : Nat) (h : 1 ≤ m) :
    sliceLen L (m : Int) (-(m : Int)) = L - 2 * m := by
  unfold sliceLen pyBound
  split_ifs <;> omega

/-- `a[m:n+m]` on an axis of length `n + 2*m` keeps exactly `n` entries. -/
theorem sliceLen_interior (n m L : Nat) (hL : L = n + 2 * m) :
    sliceLen L (m : Int) ((n : Int) + (m : Int)) = n := by
  unfold sliceLen pyBound
  split_ifs <;> omega

/-- Position `j` of the slice `a[m:…]` reads position `m + j` of the axis,
when `m` is within the axis. -/
theorem sliceMap_eq (L m : Nat) (h : m ≤ L) (j : Nat) :
    sliceMap L (m : Int) j = m + j := by
  unfold sliceMap pyBound
  split_ifs <;> omega

/-- `(ng.map (· + 2*mbc)).getD d 0 = ng.getD d 0 + 2*mbc` inside bounds. -/
theorem getD_map_add (ng : List Nat) (mbc d : Nat) (h : d < ng.length) :
    (ng.map (fun n => n + 2 * mbc)).getD d 0 = ng.getD d 0 + 2 * mbc := by
  induction ng generalizing d with
  | nil => simp at h
  | cons a l ih =>
    cases d with
    | zero => rfl
    | succ d => exact ih d (by simpa using h)

/-- Evaluation of `set_global_q` in the 1D branch. -/
theorem set_global_q_eq_dim1 (mbc : Nat) (s : PState) (g : NDArray)
    (h1 : s.grid.ndim = 1) :
    set_global_q mbc s g =
      ({ s with q :=
          { shape := [g.shape.getD 0 0,
                      sliceLen (g.shape.getD 1 0) (mbc : Int) (-(mbc : Int))]
            get := fun idx =>
              g.get [idx.getD 0 0,
                     sliceMap (g.shape.getD 1 0) (mbc : Int) (idx.getD 1 0)] } },
       none, []) := by
  simp [set_global_q, h1]

/-- Evaluation of `set_global_q` in the 2D branch. -/
theorem set_global_q_eq_dim2 (mbc : Nat) (s : PState) (g : NDArray)
    (_h1 : s.grid.ndim ≠ 1) (h2 : s.grid.ndim = 2) :
    set_global_q mbc s g =
      ({ s with q :=
          { shape := [g.shape.getD 0 0,
                      sliceLen (g.shape.getD 1 0) (mbc : Int)
                        ((s.grid.ng.getD 0 0 : Int) + (mbc : Int)),
                      sliceLen (g.shape.getD 2 0) (mbc : Int)
                        ((s.grid.ng.getD 1 0 : Int) + (mbc : Int))]
            get := fun idx =>
              g.get [idx.getD 0 0,
                     sliceMap (g.shape.getD 1 0) (mbc : Int) (idx.getD 1 0),
                     sliceMap (g.shape.getD 2 0) (mbc : Int) (idx.getD 2 0)] } },
       none, []) := by
  simp [set_global_q, h2]

/-! ## Maximum of a fold -/

/-- The seed is below the maximum fold. -/
theorem foldl_max_self (xs : List Int) : ∀ x : Int, x ≤ xs.foldl max x := by
  induction xs with
  | nil => intro x; exact le_refl x
  | cons a l ih => intro x; exact le_trans (le_max_left x a) (ih (max x a))

/-- The maximum fold is the seed or one of the elements. -/
theorem foldl_max_mem (xs : List Int) :
    ∀ x : Int, xs.foldl max x = x ∨ xs.foldl max x ∈ xs := by
  induction xs with
  | nil => intro x; exact Or.inl rfl
  | cons a l ih =>
    intro x
    rcases ih (max x a) with h | h
    · rcases max_choice x a with hm | hm
      · exact Or.inl (by rw [List.foldl_cons, h, hm])
      · exact Or.inr (by rw [List.foldl_cons, h, hm]; exact List.mem_cons_self a l)
    · exact Or.inr (List.mem_cons_of_mem a h)

/-- Every element is below the maximum fold. -/
theorem le_foldl_max (xs : List Int) :
    ∀ (x y : Int), y ∈ xs → y ≤ xs.foldl max x := by
  induction xs with
  | nil => intro x y h; simp at h
  | cons a l ih =>
    intro x y h
    rcases List.mem_cons.mp h with rfl | h
    · exact le_trans (le_max_right x y) (foldl_max_self l (max x y))
    · exact ih (max x a) y h

/-! ## Claim theorems -/

/-- C3: `append_ghost_cells(state)` and `append_ghost_cells_to_aux(state)`
return the local buffer reshaped in Fortran order into a multi-dimensional
array with ghost layers: the first dimension is `state.meqn`
(resp. `state.maux`) and spatial dimension `d` has size
`state.grid.ng[d] + 2 * mbc` for every spatial dimension `d`. -/
theorem append_ghost_cells_ghosted_shape (mbc : Nat) (s : PState) :
    (append_ghost_cells mbc s).1.shape.headD 0 = s.meqn ∧
    (append_ghost_cells_to_aux mbc s).1.shape.headD 0 = s.maux ∧
    (append_ghost_cells mbc s).1.shape.length = s.grid.ng.length + 1 ∧
    (append_ghost_cells_to_aux mbc s).1.shape.length = s.grid.ng.length + 1 ∧
    (∀ d, d < s.grid.ng.length →
      (append_ghost_cells mbc s).1.shape.getD (d + 1) 0
        = s.grid.ng.getD d 0 + 2 * mbc) ∧
    (∀ d, d < s.grid.ng.length →
      (append_ghost_cells_to_aux mbc s).1.shape.getD (d + 1) 0
        = s.grid.ng.getD d 0 + 2 * mbc) ∧
    (∀ idx, (append_ghost_cells mbc s).1.get idx
        = s.lq (fortranIndex (s.meqn :: s.grid.ng.map (fun n => n + 2 * mbc)) idx)) ∧
    (∀ idx, (append_ghost_cells_to_aux mbc s).1.get idx
        = s.laux (fortranIndex (s.maux :: s.grid.ng.map (fun n => n + 2 * mbc)) idx)) := by
  refine ⟨rfl, rfl, by simp [append_ghost_cells],
    by simp [append_ghost_cells_to_aux], ?_, ?_, fun _ => rfl, fun _ => rfl⟩
  · intro d hd
    exact getD_map_add s.grid.ng mbc d hd
  · intro d hd
    exact getD_map_add s.grid.ng mbc d hd

/-- C3 witness: concrete evaluation on the 2D state `state2` at `mbc = 2`. -/
theorem append_ghost_cells_ghosted_shape_witness :
    (0 < state2.grid.ng.length ∧ 1 < state2.grid.ng.length) ∧
    (append_ghost_cells 2 state2).1.shape.getD 1 0 = 2 + 2 * 2 ∧
    (append_ghost_cells_to_aux 2 state2).1.shape.getD 2 0 = 3 + 2 * 2 :=
  ⟨⟨by decide, by decide⟩,
   (append_ghost_cells_ghosted_shape 2 state2).2.2.2.2.1 0 (by decide),
   (append_ghost_cells_ghosted_shape 2 state2).2.2.2.2.2.1 1 (by decide)⟩

/-- C9: at `mbc = 0`, the 1D branch `ghosted_q[:, 0:-0]` collapses to the
empty slice `0:0` (zero interior cells), while the 2D branch
`ghosted_q[:, 0:mx, 0:my]` keeps the full array. -/
theorem set_global_q_mbc_zero (s : PState) (g : NDArray) :
    (s.grid.ndim = 1 →
       (set_global_q 0 s g).1.q.shape = [g.shape.getD 0 0, 0]) ∧
    (s.grid.ndim = 2 →
       g.shape = [s.meqn, s.grid.ng.getD 0 0, s.grid.ng.getD 1 0] →
       (set_global_q 0 s g).1.q.shape = g.shape ∧
       ∀ i j k, (set_global_q 0 s g).1.q.get [i, j, k] = g.get [i, j, k]) := by
  constructor
  · intro h1
    simp [set_global_q, h1, sliceLen, pyBound]
  · intro h2 hshape
    have h1 : s.grid.ndim ≠ 1 := by omega
    constructor
    · simp [set_global_q, h1, h2, hshape, sliceLen, pyBound]
    · intro i j k
      simp [set_global_q, h1, h2, hshape, sliceMap, pyBound]

/-- C9 witness: concrete evaluation on `state1` (1D) and `state2` (2D) at
`mbc = 0`. -/
theorem set_global_q_mbc_zero_witness :
    (set_global_q 0 state1 ghost12).1.q.shape = [1, 0] ∧
    (set_global_q 0 state2 ghost123).1.q.shape = ghost123.shape ∧
    (set_global_q 0 state2 ghost123).1.q.get [0, 1, 2] = ghost123.get [0, 1, 2] :=
  ⟨(set_global_q_mbc_zero state1 ghost12).1 rfl,
   ((set_global_q_mbc_zero state2 ghost123).2 rfl (by decide)).1,
   ((set_global_q_mbc_zero state2 ghost123).2 rfl (by decide)).2 0 1 2⟩

/-- C10: whenever `set_global_q` raises (its `NotImplementedError` for
`ndim ∉ {1, 2}`), the state is returned completely unchanged — the raise
happens before any mutation of `state`. -/
theorem set_global_q_error_leaves_state (mbc : Nat) (s : PState) (g : NDArray)
    (e : PyErr) (h : (set_global_q mbc s g).2.1 = some e) :
    (set_global_q mbc s g).1 = s := by
  by_cases h1 : s.grid.ndim = 1
  · simp [set_global_q, h1] at h
  · by_cases h2 : s.grid.ndim = 2
    · simp [set_global_q, h1, h2] at h
    · simp [set_global_q, h1, h2]

/-- C10 witness: on the 3D state `state3`, `set_global_q` errors and
returns the state untouched. -/
theorem set_global_q_error_leaves_state_witness :
    (set_global_q 1 state3 ghost12).2.1
      = some (PyErr.notImplementedError
          "The case of 3D is not handled in this function yet") ∧
    (set_global_q 1 state3 ghost12).1 = state3 :=
  ⟨rfl, set_global_q_error_leaves_state 1 state3 ghost12
    (PyErr.notImplementedError
      "The case of 3D is not handled in this function yet") rfl⟩

/-- C7 counterexample: `set_global_q` performs zero calls into the
distributed-array library (its scatter lines are commented out in the
source), not exactly one. -/
theorem set_global_q_no_comm_call_cex :
    (set_global_q 1 state1b ghost23).2.2.length ≠ 1 := by decide

/-- C7 (amended): `append_ghost_cells` and `append_ghost_cells_to_aux` each
perform exactly one communication call (a global-to-local scatter);
`set_global_q` performs none on every input; `communicateCFL` performs
exactly one max-reduction when `dt_variable` holds and none otherwise. -/
theorem comm_call_traces (mbc : Nat) (s : PState) (g : NDArray)
    (dt : Bool) (cfls : List Int) :
    (append_ghost_cells mbc s).2 = [PetscCommCall.globalToLocal] ∧
    (append_ghost_cells_to_aux mbc s).2 = [PetscCommCall.globalToLocal] ∧
    (set_global_q mbc s g).2.2 = [] ∧
    (communicateCFL dt cfls).2
      = (if dt then [PetscCommCall.maxReduction] else []) := by
  refine ⟨rfl, rfl, ?_, ?_⟩
  · by_cases h1 : s.grid.ndim = 1
    · simp [set_global_q, h1]
    · by_cases h2 : s.grid.ndim = 2 <;> simp [set_global_q, h1, h2]
  · cases dt <;> rfl

/-- C2: `set_global_q` errors exactly when `grid.ndim ∉ {1, 2}`, its error
is the explicit `raise NotImplementedError` (the module's only explicit
raise), and the only other fallible operation, `allocate_rk_stages`, can
fail only with an implicit (non-raise) `UnboundLocalError`; the remaining
operations are total functions of the embedding. -/
theorem only_explicit_raise_is_3d (mbc : Nat) (s : PState) (g : NDArray)
    (ti : String) (rk : List StageState) (base : StageState) :
    ((set_global_q mbc s g).2.1.isSome ↔
       (s.grid.ndim ≠ 1 ∧ s.grid.ndim ≠ 2)) ∧
    (∀ e, (set_global_q mbc s g).2.1 = some e →
       e = PyErr.notImplementedError
             "The case of 3D is not handled in this function yet"
         ∧ e.explicitRaise = true) ∧
    (∀ e, (allocate_rk_stages ti mbc rk base).2 = some e →
       e.explicitRaise = false) := by
  refine ⟨?_, ?_, ?_⟩
  · by_cases h1 : s.grid.ndim = 1 <;> by_cases h2 : s.grid.ndim = 2 <;>
      simp [set_global_q, h1, h2]
  · intro e he
    by_cases h1 : s.grid.ndim = 1
    · simp [set_global_q, h1] at he
    · by_cases h2 : s.grid.ndim = 2
      · simp [set_global_q, h1, h2] at he
      · simp [set_global_q, h1, h2] at he
        simp [← he, PyErr.explicitRaise]
  · intro e he
    by_cases hE : ti = "Euler"
    · simp [allocate_rk_stages, hE] at he
    · by_cases h33 : ti = "SSP33"
      · simp [allocate_rk_stages, hE, h33] at he
      · by_cases h104 : ti = "SSP104"
        · simp [allocate_rk_stages, hE, h33, h104] at he
        · simp [allocate_rk_stages, hE, h33, h104] at he
          simp [← he, PyErr.explicitRaise]

/-- C2 witness: concrete evaluation on the 3D state `state3` and the
unsupported integrator name `RK4`. -/
theorem only_explicit_raise_is_3d_witness :
    (set_global_q 1 state3 ghost12).2.1.isSome ∧
    PyErr.explicitRaise (PyErr.notImplementedError
      "The case of 3D is not handled in this function yet") = true ∧
    PyErr.explicitRaise (PyErr.unboundLocalError "nregisters") = false :=
  ⟨(only_explicit_raise_is_3d 1 state3 ghost12 "RK4" [] baseStage).1.mpr
      ⟨by decide, by decide⟩,
   ((only_explicit_raise_is_3d 1 state3 ghost12 "RK4" [] baseStage).2.1
      (PyErr.notImplementedError
        "The case of 3D is not handled in this function yet") rfl).2,
   (only_explicit_raise_is_3d 1 state3 ghost12 "RK4" [] baseStage).2.2
      (PyErr.unboundLocalError "nregisters") (by decide)⟩

/-- C1 counterexample: at `mbc = 0` on a 1D state (here `ghosted_q` has the
ghosted shape `[meqn, ng[0] + 2*0]`), the 1D slice `0:-0` is empty, so the
resulting `q` does not have shape `[meqn] ++ grid.ng`. -/
theorem set_global_q_shape_cex_mbc_zero :
    (set_global_q 0 state1 ghost12).1.q.shape
      ≠ state1.meqn :: state1.grid.ng := by decide

/-- C1 (amended): for a ghosted input of shape
`[meqn] ++ [n + 2*mbc for n in ng]`, `set_global_q` assigns the subarray
with the `mbc`-cell margin removed from both ends of every spatial
dimension, and the result has shape `[meqn] ++ grid.ng` — for 1D provided
`mbc ≥ 1` (the slice `mbc:-mbc` is empty at `mbc = 0`), and for 2D for
every `mbc`. -/
theorem set_global_q_strips_ghost (mbc : Nat) (s : PState) (g : NDArray)
    (hlen : s.grid.ng.length = s.grid.ndim)
    (hshape : g.shape = s.meqn :: s.grid.ng.map (fun n => n + 2 * mbc)) :
    (s.grid.ndim = 1 → 1 ≤ mbc →
      (set_global_q mbc s g).1.q.shape = s.meqn :: s.grid.ng ∧
      ∀ i j, (set_global_q mbc s g).1.q.get [i, j] = g.get [i, mbc + j]) ∧
    (s.grid.ndim = 2 →
      (set_global_q mbc s g).1.q.shape = s.meqn :: s.grid.ng ∧
      ∀ i j k, (set_global_q mbc s g).1.q.get [i, j, k]
        = g.get [i, mbc + j, mbc + k]) := by
  constructor
  · intro h1 hmbc
    rw [h1] at hlen
    obtain ⟨n0, hng⟩ := List.length_eq_one.mp hlen
    have hsh : g.shape = [s.meqn, n0 + 2 * mbc] := by
      rw [hshape, hng]; rfl
    constructor
    · simp [set_global_q, h1, hsh, hng, sliceLen_ghost n0 mbc hmbc]
    · intro i j
      simp [set_global_q, h1, hsh,
        sliceMap_eq (n0 + 2 * mbc) mbc (by omega)]
  · intro h2
    rw [h2] at hlen
    obtain ⟨n0, n1, hng⟩ := List.length_eq_two.mp hlen
    have h1 : s.grid.ndim ≠ 1 := by omega
    have hsh : g.shape = [s.meqn, n0 + 2 * mbc, n1 + 2 * mbc] := by
      rw [hshape, hng]; rfl
    constructor
    · simp [set_global_q, h1, h2, hsh, hng,
        sliceLen_interior n0 mbc (n0 + 2 * mbc) rfl,
        sliceLen_interior n1 mbc (n1 + 2 * mbc) rfl]
    · intro i j k
      simp [set_global_q, h1, h2, hsh, hng,
        sliceMap_eq (n0 + 2 * mbc) mbc (by omega),
        sliceMap_eq (n1 + 2 * mbc) mbc (by omega)]

/-- C1 witness: concrete evaluation on `state1` (1D, `mbc = 1`) and
`state2` (2D, `mbc = 1`). -/
theorem set_global_q_strips_ghost_witness :
    (set_global_q 1 state1 ghost14).1.q.shape = [1, 2] ∧
    (set_global_q 1 state1 ghost14).1.q.get [0, 1] = ghost14.get [0, 2] ∧
    (set_global_q 1 state2 ghost145).1.q.shape = [1, 2, 3] ∧
    (set_global_q 1 state2 ghost145).1.q.get [0, 1, 2]
      = ghost145.get [0, 2, 3] :=
  ⟨((set_global_q_strips_ghost 1 state1 ghost14 (by decide) (by decide)).1
      rfl (by decide)).1,
   ((set_global_q_strips_ghost 1 state1 ghost14 (by decide) (by decide)).1
      rfl (by decide)).2 0 1,
   ((set_global_q_strips_ghost 1 state2 ghost145 (by decide) (by decide)).2
      rfl).1,
   ((set_global_q_strips_ghost 1 state2 ghost145 (by decide) (by decide)).2
      rfl).2 0 1 2⟩

/-- C5: the round trip `set_global_q(state, append_ghost_cells(state))`
(for `ndim ∈ {1, 2}` and `mbc ≥ 1`) leaves `state.q` equal to the interior
(non-ghost) portion of the ghost-padded local vector: entry `[i, j…]` of
`q` is the local-buffer entry at the Fortran offset of `[i, j + mbc…]` in
the ghosted shape. -/
theorem roundtrip_preserves_interior (mbc : Nat) (s : PState)
    (hmbc : 1 ≤ mbc) (hlen : s.grid.ng.length = s.grid.ndim) :
    (s.grid.ndim = 1 →
      (set_global_q mbc s (append_ghost_cells mbc s).1).1.q.shape
        = s.meqn :: s.grid.ng ∧
      ∀ i j, (set_global_q mbc s (append_ghost_cells mbc s).1).1.q.get [i, j]
        = s.lq (fortranIndex
            (s.meqn :: s.grid.ng.map (fun n => n + 2 * mbc)) [i, mbc + j])) ∧
    (s.grid.ndim = 2 →
      (set_global_q mbc s (append_ghost_cells mbc s).1).1.q.shape
        = s.meqn :: s.grid.ng ∧
      ∀ i j k,
        (set_global_q mbc s (append_ghost_cells mbc s).1).1.q.get [i, j, k]
        = s.lq (fortranIndex
            (s.meqn :: s.grid.ng.map (fun n => n + 2 * mbc))
            [i, mbc + j, mbc + k])) := by
  constructor
  · intro h1
    rw [h1] at hlen
    obtain ⟨n0, hng⟩ := List.length_eq_one.mp hlen
    constructor
    · simp [set_global_q, append_ghost_cells, h1, hng,
        sliceLen_ghost n0 mbc hmbc]
    · intro i j
      simp [set_global_q, append_ghost_cells, h1, hng,
        sliceMap_eq (n0 + 2 * mbc) mbc (by omega)]
  · intro h2
    rw [h2] at hlen
    obtain ⟨n0, n1, hng⟩ := List.length_eq_two.mp hlen
    have h1 : s.grid.ndim ≠ 1 := by omega
    constructor
    · simp [set_global_q, append_ghost_cells, h1, h2, hng,
        sliceLen_interior n0 mbc (n0 + 2 * mbc) rfl,
        sliceLen_interior n1 mbc (n1 + 2 * mbc) rfl]
    · intro i j k
      simp [set_global_q, append_ghost_cells, h1, h2, hng,
        sliceMap_eq (n0 + 2 * mbc) mbc (by omega),
        sliceMap_eq (n1 + 2 * mbc) mbc (by omega)]

/-- C5 witness: concrete round trip on `state1` at `mbc = 1`: the interior
entries of the local buffer (which stores its own flat offsets) come back
at offsets 1 and 2 of the ghosted axis. -/
theorem roundtrip_preserves_interior_witness :
    (set_global_q 1 state1 (append_ghost_cells 1 state1).1).1.q.shape
      = [1, 2] ∧
    (set_global_q 1 state1 (append_ghost_cells 1 state1).1).1.q.get [0, 0]
      = state1.lq (fortranIndex [1, 4] [0, 1]) :=
  ⟨((roundtrip_preserves_interior 1 state1 (by decide) (by decide)).1 rfl).1,
   ((roundtrip_preserves_interior 1 state1 (by decide) (by decide)).1 rfl).2
      0 0⟩

/-- C6 counterexample: at `mbc = 0` on a 1D state, `set_global_q` does not
remove exactly `mbc = 0` cells from each side: the slice `0:-0` empties the
axis instead of keeping it. -/
theorem set_global_q_margin_cex :
    ¬ ((set_global_q 0 state1b ghost23).1.q.shape.getD 1 0
        = ghost23.shape.getD 1 0 - 2 * 0) := by decide

/-- C6 (amended): the same `mbc` is used uniformly: the append operations
pad every spatial dimension by exactly `2 * mbc` cells, and `set_global_q`
removes exactly `mbc` cells from each side of every spatial dimension — in
1D provided `mbc ≥ 1` (at `mbc = 0` the slice `0:-0` empties the axis), in
2D for every `mbc` on inputs whose spatial axes carry the `2 * mbc`
margin. -/
theorem ghost_margin_uniform (mbc : Nat) (s : PState) (g : NDArray) :
    (∀ d, d < s.grid.ng.length →
       (append_ghost_cells mbc s).1.shape.getD (d + 1) 0
         = s.grid.ng.getD d 0 + 2 * mbc) ∧
    (∀ d, d < s.grid.ng.length →
       (append_ghost_cells_to_aux mbc s).1.shape.getD (d + 1) 0
         = s.grid.ng.getD d 0 + 2 * mbc) ∧
    (s.grid.ndim = 1 → 1 ≤ mbc →
       (set_global_q mbc s g).1.q.shape.getD 1 0
         = g.shape.getD 1 0 - 2 * mbc ∧
       (mbc ≤ g.shape.getD 1 0 →
         ∀ i j, (set_global_q mbc s g).1.q.get [i, j] = g.get [i, mbc + j])) ∧
    (s.grid.ndim = 2 →
       g.shape.getD 1 0 = s.grid.ng.getD 0 0 + 2 * mbc →
       g.shape.getD 2 0 = s.grid.ng.getD 1 0 + 2 * mbc →
       (set_global_q mbc s g).1.q.shape.getD 1 0
           = g.shape.getD 1 0 - 2 * mbc ∧
       (set_global_q mbc s g).1.q.shape.getD 2 0
           = g.shape.getD 2 0 - 2 * mbc ∧
       ∀ i j k, (set_global_q mbc s g).1.q.get [i, j, k]
         = g.get [i, mbc + j, mbc + k]) := by
  refine ⟨?_, ?_, ?_, ?_⟩
  · intro d hd
    exact getD_map_add s.grid.ng mbc d hd
  · intro d hd
    exact getD_map_add s.grid.ng mbc d hd
  · intro h1 hmbc
    rw [set_global_q_eq_dim1 mbc s g h1]
    constructor
    · show sliceLen (g.shape.getD 1 0) (mbc : Int) (-(mbc : Int))
        = g.shape.getD 1 0 - 2 * mbc
      exact sliceLen_neg_total (g.shape.getD 1 0) mbc hmbc
    · intro hL i j
      show g.get [i, sliceMap (g.shape.getD 1 0) (mbc : Int) j]
        = g.get [i, mbc + j]
      rw [sliceMap_eq (g.shape.getD 1 0) mbc hL]
  · intro h2 hg1 hg2
    have h1 : s.grid.ndim ≠ 1 := by omega
    rw [set_global_q_eq_dim2 mbc s g h1 h2]
    have e1 : sliceLen (g.shape.getD 1 0) (mbc : Int)
        ((s.grid.ng.getD 0 0 : Int) + (mbc : Int)) = s.grid.ng.getD 0 0 :=
      sliceLen_interior _ mbc _ hg1
    have e2 : sliceLen (g.shape.getD 2 0) (mbc : Int)
        ((s.grid.ng.getD 1 0 : Int) + (mbc : Int)) = s.grid.ng.getD 1 0 :=
      sliceLen_interior _ mbc _ hg2
    refine ⟨?_, ?_, ?_⟩
    · show sliceLen (g.shape.getD 1 0) (mbc : Int)
          ((s.grid.ng.getD 0 0 : Int) + (mbc : Int))
        = g.shape.getD 1 0 - 2 * mbc
      omega
    · show sliceLen (g.shape.getD 2 0) (mbc : Int)
          ((s.grid.ng.getD 1 0 : Int) + (mbc : Int))
        = g.shape.getD 2 0 - 2 * mbc
      omega
    · intro i j k
      show g.get [i, sliceMap (g.shape.getD 1 0) (mbc : Int) j,
                  sliceMap (g.shape.getD 2 0) (mbc : Int) k]
        = g.get [i, mbc + j, mbc + k]
      rw [sliceMap_eq (g.shape.getD 1 0) mbc (by omega),
        sliceMap_eq (g.shape.getD 2 0) mbc (by omega)]

/-- C6 witness: concrete evaluation at `mbc = 1` on `state1`. -/
theorem ghost_margin_uniform_witness :
    (0 < state1.grid.ng.length ∧ (1 : Nat) ≤ 1) ∧
    (append_ghost_cells 1 state1).1.shape.getD 1 0 = 2 + 2 * 1 ∧
    (set_global_q 1 state1 ghost14).1.q.shape.getD 1 0 = 4 - 2 * 1 :=
  ⟨⟨by decide, le_refl 1⟩,
   (ghost_margin_uniform 1 state1 ghost14).1 0 (by decide),
   ((ghost_margin_uniform 1 state1 ghost14).2.2.1 rfl (by decide)).1⟩

/-- C4 counterexample: with `dt_variable = False` the body of
`communicateCFL` is skipped, so a process's `cfl` can stay below the
ensemble maximum. -/
theorem communicateCFL_not_always_max_cex :
    ¬ ((communicateCFL false [0, 1]).1.getD 0 0 = vecMax [0, 1]) := by decide

/-- C4 (amended): when `self.dt_variable` holds, after `communicateCFL`
every process's `cfl` equals the maximum of the per-process CFL values
(which `vecMax` really is: an upper bound attained in the list); when it
does not hold, `communicateCFL` leaves every `cfl` unchanged. -/
theorem communicateCFL_reduces_max (cfls : List Int) :
    (∀ c ∈ (communicateCFL true cfls).1, c = vecMax cfls) ∧
    (communicateCFL true cfls).1.length = cfls.length ∧
    (communicateCFL false cfls).1 = cfls ∧
    (∀ x ∈ cfls, x ≤ vecMax cfls) ∧
    (cfls ≠ [] → vecMax cfls ∈ cfls) := by
  refine ⟨?_, ?_, rfl, ?_, ?_⟩
  · intro c hc
    have hc' : c ∈ cfls.map (fun _ => vecMax cfls) := hc
    rcases List.mem_map.mp hc' with ⟨a, _, h⟩
    exact h.symm
  · simp [communicateCFL]
  · intro x hx
    cases cfls with
    | nil => simp at hx
    | cons a l =>
      rcases List.mem_cons.mp hx with rfl | hx
      · exact foldl_max_self l x
      · exact le_foldl_max l a x hx
  · intro h
    cases cfls with
    | nil => exact absurd rfl h
    | cons a l =>
      rcases foldl_max_mem l a with hm | hm
      · rw [show vecMax (a :: l) = l.foldl max a from rfl, hm]
        exact List.mem_cons_self a l
      · exact List.mem_cons_of_mem a hm

/-- C4 witness: concrete evaluation on the two-process ensemble `[3, 5]`. -/
theorem communicateCFL_reduces_max_witness :
    (5 : Int) ∈ (communicateCFL true [3, 5]).1 ∧ (5 : Int) = vecMax [3, 5] :=
  ⟨by decide, (communicateCFL_reduces_max [3, 5]).1 5 (by decide)⟩

/-- C8 counterexample: on the unsupported integrator `RK4`, the
`UnboundLocalError` is raised only at the loop header — after
`self.rk_stages = []` has already executed, so `rk_stages` *is* modified
before the failure. -/
theorem allocate_rk_stages_clears_before_error_cex :
    (allocate_rk_stages "RK4" 2 [baseStage] baseStage).2
      = some (PyErr.unboundLocalError "nregisters") ∧
    (allocate_rk_stages "RK4" 2 [baseStage] baseStage).1 ≠ [baseStage] := by
  exact ⟨by decide, by decide⟩

/-- C8 (amended): for any integrator other than `Euler`, `SSP33`, `SSP104`,
`allocate_rk_stages` fails with the unbound-local error on `nregisters`,
but only after `self.rk_stages` has been reset to the empty list; for the
three supported values it sets `rk_stages` to exactly `nregisters - 1`
(0, 1, 2) fresh states whose `meqn`, `maux`, `aux_global` and `t` are
copied from the base state. -/
theorem allocate_rk_stages_spec (mbc : Nat) (rk : List StageState)
    (base : StageState) :
    (∀ ti : String, ti ≠ "Euler" → ti ≠ "SSP33" → ti ≠ "SSP104" →
       allocate_rk_stages ti mbc rk base
         = ([], some (PyErr.unboundLocalError "nregisters"))) ∧
    allocate_rk_stages "Euler" mbc rk base = ([], none) ∧
    (allocate_rk_stages "SSP33" mbc rk base).1.length = 1 ∧
    (allocate_rk_stages "SSP104" mbc rk base).1.length = 2 ∧
    (allocate_rk_stages "SSP33" mbc rk base).2 = none ∧
    (allocate_rk_stages "SSP104" mbc rk base).2 = none ∧
    (∀ ti st, st ∈ (allocate_rk_stages ti mbc rk base).1 →
       st.meqn = base.meqn ∧ st.maux = base.maux ∧
       st.aux_global = base.aux_global ∧ st.t = base.t) := by
  have key : ∀ (k : Nat) (st : StageState),
      st ∈ (List.range k).map (fun _ => mkStage base mbc) →
      st = mkStage base mbc := by
    intro k st hk
    rcases List.mem_map.mp hk with ⟨a, _, h⟩
    exact h.symm
  refine ⟨?_, rfl, rfl, rfl, rfl, rfl, ?_⟩
  · intro ti hE h33 h104
    simp [allocate_rk_stages, hE, h33, h104]
  · intro ti st hst
    by_cases hE : ti = "Euler"
    · subst hE
      have := key 0 st hst
      simp [this, mkStage]
    · by_cases h33 : ti = "SSP33"
      · subst h33
        have := key 1 st hst
        simp [this, mkStage]
      · by_cases h104 : ti = "SSP104"
        · subst h104
          have := key 2 st hst
          simp [this, mkStage]
        · simp [allocate_rk_stages, hE, h33, h104] at hst

/-- C8 witness: concrete evaluation at the unsupported name `RK4` and the
supported `SSP104`. -/
theorem allocate_rk_stages_spec_witness :
    allocate_rk_stages "RK4" 3 [] baseStage
      = ([], some (PyErr.unboundLocalError "nregisters")) ∧
    (mkStage baseStage 3).meqn = baseStage.meqn ∧
    (mkStage baseStage 3).t = baseStage.t :=
  ⟨(allocate_rk_stages_spec 3 [] baseStage).1 "RK4"
      (by decide) (by decide) (by decide),
   ((allocate_rk_stages_spec 3 [] baseStage).2.2.2.2.2.2 "SSP104"
      (mkStage baseStage 3) (by decide)).1,
   ((allocate_rk_stages_spec 3 [] baseStage).2.2.2.2.2.2 "SSP104"
      (mkStage baseStage 3) (by decide)).2.2.2⟩

end PetClaw
